import Mathlib

/-!
Verification of the gogcli Authorization and Credential Management core.

This file gives a shallow embedding, in Lean 4, of the authorization flow
of the gogcli repository (package googleauth: function Authorize and the
accounts management server in accounts_server.go, together with the auth
command layer in internal/cmd/auth.go), and proves or refutes a fixed set
of behavioural claims about it.

Modelling conventions:
- Go strings are Lean String values; strings.TrimSpace and strings.ToLower
  are re-implemented over the character list of the string.
- r.URL.Query().Get(k) returns the empty string when the parameter k is
  absent, so an absent query parameter is modelled as the empty string.
- Buffered-by-one Go channels written with a non-blocking send
  (select { case ch <- v: default: }) are modelled as an Option slot
  written by trySend: the first write fills the slot, later writes are
  discarded.
- The three-way select of the flow coordinator (code channel, error
  channel, context deadline) is modelled by authorizeWait, which returns
  none while no alternative is ready; a tie between a ready code and a
  ready error is resolved by an explicit Pick argument, mirroring the
  nondeterministic choice Go makes between two ready channels.
- The token-exchange HTTP call is modelled as a function
  String -> Option String from authorization code to refresh token
  (none models a failed exchange; some rt a response whose RefreshToken
  field is rt, possibly empty).
- The secrets store is modelled from the in-repository in-memory
  implementation memSecretsStore (internal/cmd/auth_cmd_test.go), as an
  association list keyed by the normalized email; Go map assignment is
  storeInsert.
- JSON encoding and decoding of the token export file is collapsed: the
  export record carries the field values themselves, and the RFC3339
  CreatedAt string is carried as the underlying Option Nat timestamp.
-/

namespace Gogcli

/-! ### Go string helpers

goTrim models strings.TrimSpace and goToLower models strings.ToLower,
both over the character list of the string.
-/

def goTrimList (l : List Char) : List Char :=
  ((l.dropWhile Char.isWhitespace).reverse.dropWhile Char.isWhitespace).reverse

def goTrim (s : String) : String :=
  String.mk (goTrimList s.data)

def goToLower (s : String) : String :=
  String.mk (s.data.map Char.toLower)

/-- Key normalization of the secrets store (memSecretsStore.normalizeEmail):
strings.ToLower(strings.TrimSpace(s)). -/
def normalizeEmail (s : String) : String :=
  goToLower (goTrim s)

/-! ### Token records and the secrets store

Token mirrors secrets.Token as used by the auth command layer; the
CreatedAt time.Time is modelled as Option Nat (none is the Go zero time).
The store operations follow memSecretsStore in auth_cmd_test.go.
-/

structure Token where
  email : String
  services : List String
  scopes : List String
  createdAt : Option Nat
  refreshToken : String
deriving Repr, DecidableEq

abbrev SecretStore := List (String × Token)

def lookupStore : SecretStore → String → Option Token
  | [], _ => none
  | (k, v) :: rest, e => if k = e then some v else lookupStore rest e

/-- Go map assignment tokens[email] = tok: replace the binding if the key
is present, otherwise append it. -/
def storeInsert : SecretStore → String → Token → SecretStore
  | [], k, v => [(k, v)]
  | (k', v') :: rest, k, v =>
      if k' = k then (k, v) :: rest else (k', v') :: storeInsert rest k v

/-- memSecretsStore.SetToken: normalize the email, require it and the
refresh token non-blank, overwrite the Email field with the normalized
key, and write the record. -/
def setToken (store : SecretStore) (email : String) (tok : Token) :
    Except String SecretStore :=
  let e := normalizeEmail email
  if e = "" then Except.error "missing email"
  else if goTrim tok.refreshToken = "" then Except.error "missing refresh token"
  else Except.ok (storeInsert store e { tok with email := e })

/-- memSecretsStore.GetToken: normalize the email and look it up; a
missing key is the not-found error. -/
def getToken (store : SecretStore) (email : String) : Except String Token :=
  let e := normalizeEmail email
  if e = "" then Except.error "missing email"
  else
    match lookupStore store e with
    | some t => Except.ok t
    | none => Except.error "secret not found in keyring"

/-! ### Scope registry

Modelled from the spec: the googleauth scope registry source file
(Scopes and ScopesForServices over the fixed Service enumeration) is not
among the provided sources; only its tests (TestScopesForServices_UnionSorted,
TestScopes_UnknownService) and callers are. Per the spec (section 4.1) the
registry maps each known service identifier to its permission strings,
fails with an unknown-service error on any identifier outside the
enumeration, and the union operation returns the lexicographically sorted,
deduplicated union of the per-service scope lists. The registry mapping is
a parameter reg; reg s = none models an unknown identifier.
-/

/-- Modelled from the spec: Scopes(service) returns the permission strings
of one service, or the unknown-service error. -/
def Scopes (reg : String → Option (List String)) (s : String) :
    Except String (List String) :=
  match reg s with
  | some l => Except.ok l
  | none => Except.error ("unknown service: " ++ s)

/-- Modelled from the spec: the concatenation of the per-service scope
lists, failing on the first unknown service. -/
def collectScopes (reg : String → Option (List String)) :
    List String → Except String (List String)
  | [] => Except.ok []
  | s :: rest =>
      match reg s with
      | none => Except.error ("unknown service: " ++ s)
      | some sc =>
          match collectScopes reg rest with
          | Except.error e => Except.error e
          | Except.ok acc => Except.ok (sc ++ acc)

/-- Lexicographically sorted, deduplicated view of a list of scope
strings, as the sorted listing of its set of members. -/
def dedupSort (l : List String) : List String :=
  l.toFinset.sort (· ≤ ·)

/-- Modelled from the spec: ScopesForServices(services) computes the
sorted deduplicated union of the scopes of the requested services, or
fails with the unknown-service error. -/
def ScopesForServices (reg : String → Option (List String))
    (svcs : List String) : Except String (List String) :=
  match collectScopes reg svcs with
  | Except.error e => Except.error e
  | Except.ok all => Except.ok (dedupSort all)

/-- Output well-formedness of the scope union: a successful result is
sorted and duplicate-free. -/
def sortedDeduped (r : Except String (List String)) : Prop :=
  match r with
  | Except.error _ => True
  | Except.ok out => List.Sorted (· ≤ ·) out ∧ out.Nodup

/-! ### Flow errors and the manual (paste) read step -/

inductive ReadErrorKind where
  | endOfInput
  | fileClosed
  | otherFailure
deriving Repr, DecidableEq

inductive FlowErr where
  | authError (msg : String)
  | stateMismatch
  | missingCode
  | exchangeFailed
  | noRefreshToken
  | deadlineExceeded
  | readFailed (k : ReadErrorKind)
deriving Repr, DecidableEq

/-- Manual variant read step (Authorize, manual branch): ReadString
returns the line read so far and possibly an error; the code returns the
read error unless errors.Is(readErr, os.ErrClosed), and otherwise
continues with the TrimSpace of the line. -/
def manualRead (line : String) (re : Option ReadErrorKind) :
    Except FlowErr String :=
  match re with
  | none => Except.ok (goTrim line)
  | some k =>
      if k = ReadErrorKind.fileClosed then Except.ok (goTrim line)
      else Except.error (FlowErr.readFailed k)

/-! ### Interactive flow: callback handler and coordinator -/

/-- A request to the loopback listener: the URL path and the code, state,
error and email query parameters (empty string when absent). -/
structure CallbackRequest where
  path : String
  errorParam : String
  state : String
  code : String
  email : String
deriving Repr, DecidableEq

inductive Page where
  | notFound
  | success
  | cancelled
  | errorPage (msg : String)
  | successDetails (email : String) (services : List String)
  | jsonOk
  | jsonErr (msg : String)
  | redirectToProvider
deriving Repr, DecidableEq

structure HttpResponse where
  status : Nat
  page : Page
deriving Repr, DecidableEq

def csrfMismatchMsg : String :=
  "State mismatch - possible CSRF attack. Please try again."

def missingCodeMsg : String :=
  "Missing authorization code. Please try again."

/-- The single-slot rendezvous: a non-blocking send to a buffered-by-one
channel fills an empty slot and is discarded on a full one. -/
def trySend (slot : Option α) (v : α) : Option α :=
  match slot with
  | none => some v
  | some w => some w

/-- The code and error channels of the interactive flow (codeCh, errCh,
both buffered by one). -/
structure Slots where
  codeSlot : Option String
  errSlot : Option FlowErr
deriving Repr, DecidableEq

/-- The interactive callback handler of Authorize: path check, then the
error parameter (cancellation), then exact state equality, then presence
of code; exactly one of code or error is offered to the rendezvous. -/
def handleCallback (issuedState : String) (q : CallbackRequest) (s : Slots) :
    Slots × HttpResponse :=
  if q.path ≠ "/oauth2/callback" then
    (s, ⟨404, Page.notFound⟩)
  else if q.errorParam ≠ "" then
    ({ s with errSlot := trySend s.errSlot (FlowErr.authError q.errorParam) },
     ⟨200, Page.cancelled⟩)
  else if q.state ≠ issuedState then
    ({ s with errSlot := trySend s.errSlot FlowErr.stateMismatch },
     ⟨400, Page.errorPage csrfMismatchMsg⟩)
  else if q.code = "" then
    ({ s with errSlot := trySend s.errSlot FlowErr.missingCode },
     ⟨400, Page.errorPage missingCodeMsg⟩)
  else
    ({ s with codeSlot := trySend s.codeSlot q.code },
     ⟨200, Page.success⟩)

/-- Sequential processing of a list of callback deliveries by the
listener; concurrency is modelled as an arbitrary serialization of the
deliveries. -/
def processDeliveries (issuedState : String) (s : Slots) :
    List CallbackRequest → Slots
  | [] => s
  | q :: qs => processDeliveries issuedState (handleCallback issuedState q s).1 qs

/-- Number of deliveries whose payload is accepted into the code slot
(the slot goes from empty to filled at that delivery). -/
def acceptedCount (issuedState : String) (s : Slots) :
    List CallbackRequest → Nat
  | [] => 0
  | q :: qs =>
      let s' := (handleCallback issuedState q s).1
      (if s.codeSlot.isNone && s'.codeSlot.isSome then 1 else 0) +
        acceptedCount issuedState s' qs

/-- Tie-break between a ready code channel and a ready error channel in
the select of the coordinator. -/
inductive Pick where
  | pickCode
  | pickErr
deriving Repr, DecidableEq

/-- Token exchange on a received code (cfg.Exchange followed by the
RefreshToken check); the second component is the list of exchange calls
made. -/
def exchangeStep (exch : String → Option String) (c : String) :
    Except FlowErr String × List String :=
  match exch c with
  | none => (Except.error FlowErr.exchangeFailed, [c])
  | some rt =>
      if rt = "" then (Except.error FlowErr.noRefreshToken, [c])
      else (Except.ok rt, [c])

/-- The select of the Authorize coordinator: receive from the code
channel or the error channel, or time out. none means no alternative is
ready and the coordinator is still blocked. -/
def authorizeWait (s : Slots) (timedOut : Bool) (pick : Pick)
    (exch : String → Option String) :
    Option (Except FlowErr String × List String) :=
  match s.codeSlot, s.errSlot with
  | some c, some e =>
      match pick with
      | Pick.pickCode => some (exchangeStep exch c)
      | Pick.pickErr => some (Except.error e, [])
  | some c, none => some (exchangeStep exch c)
  | none, some e => some (Except.error e, [])
  | none, none =>
      if timedOut then some (Except.error FlowErr.deadlineExceeded, [])
      else none

/-- Timeout defaulting at the top of Authorize, in nanoseconds:
a non-positive timeout becomes 2 * time.Minute. -/
def effectiveTimeout (timeoutNs : Int) : Int :=
  if timeoutNs ≤ 0 then 2 * 60 * 1000000000 else timeoutNs

/-! ### Auth add command (internal/cmd/auth.go, AuthAddCmd.Run)

Only the part downstream of the authorize call is modelled: on an
authorize error the command returns it and performs no store write; on
success it writes exactly one token record built from the sorted service
names, the scopes and the refresh token.
-/

structure StoreWrite where
  email : String
  tok : Token
deriving Repr, DecidableEq

def sortStrings (l : List String) : List String :=
  l.mergeSort (· ≤ ·)

def authAddRun (email : String) (serviceNames scopes : List String)
    (authResult : Except FlowErr String) :
    Except FlowErr String × List StoreWrite :=
  match authResult with
  | Except.error e => (Except.error e, [])
  | Except.ok rt =>
      (Except.ok rt,
       [⟨email, ⟨email, sortStrings serviceNames, scopes, none, rt⟩⟩])

/-! ### Accounts management server (accounts_server.go) -/

/-- The per-instance mutable fields of ManageServer that the claims are
about: the single-use OAuth state and the CSRF token issued at start. -/
structure ManageState where
  oauthState : String
  csrfToken : String
deriving Repr, DecidableEq

inductive StoreOp where
  | setTokenOp (email : String) (tok : Token)
  | setDefaultOp (email : String)
  | deleteTokenOp (email : String)
deriving Repr, DecidableEq

/-- handleAuthStart: after the credentials check, a fresh state is
generated and written to ms.oauthState, and the browser is redirected to
the provider (authorization URL construction is not modelled). -/
def handleAuthStartM (st : ManageState) (credsOk : Bool) (newState : String) :
    ManageState × HttpResponse :=
  if credsOk then
    ({ st with oauthState := newState }, ⟨302, Page.redirectToProvider⟩)
  else
    (st, ⟨500, Page.errorPage "OAuth credentials not configured"⟩)

/-- handleOAuthCallback of the accounts server: cancellation on a
non-empty error parameter, exact state equality against ms.oauthState,
presence of code, credentials read, token exchange, refresh-token check,
then the store write under the email query parameter or the placeholder.
The returned ManageState is the server state after the handler; the
handler never writes ms.oauthState. The store-operation list records the
calls made to the secrets store. -/
def handleOAuthCallbackM (st : ManageState) (serviceNames scopes : List String)
    (credsOk : Bool) (exch : String → Option String) (q : CallbackRequest) :
    ManageState × HttpResponse × List StoreOp :=
  if q.errorParam ≠ "" then
    (st, ⟨200, Page.cancelled⟩, [])
  else if q.state ≠ st.oauthState then
    (st, ⟨400, Page.errorPage csrfMismatchMsg⟩, [])
  else if q.code = "" then
    (st, ⟨400, Page.errorPage missingCodeMsg⟩, [])
  else if ¬credsOk then
    (st, ⟨500, Page.errorPage "Failed to read credentials"⟩, [])
  else
    match exch q.code with
    | none => (st, ⟨500, Page.errorPage "Failed to exchange code for token"⟩, [])
    | some rt =>
        if rt = "" then
          (st, ⟨400, Page.errorPage "No refresh token received. Try again with force-consent."⟩, [])
        else
          let email := if q.email = "" then "user@gmail.com" else q.email
          (st, ⟨200, Page.successDetails email serviceNames⟩,
           [StoreOp.setTokenOp email ⟨email, serviceNames, scopes, none, rt⟩])

/-- A mutating request to the accounts server: the HTTP method, the
X-CSRF-Token header value (empty string when the header is missing), and
the decoded JSON body email (none when the body does not decode). -/
structure MutReq where
  method : String
  csrfHeader : String
  body : Option String
deriving Repr, DecidableEq

/-- handleSetDefault: method check, CSRF header equality, body decode,
then the SetDefaultAccount store call. -/
def handleSetDefaultM (csrfToken : String) (r : MutReq) (storeOk : Bool) :
    HttpResponse × List StoreOp :=
  if r.method ≠ "POST" then (⟨405, Page.jsonErr "Method not allowed"⟩, [])
  else if r.csrfHeader ≠ csrfToken then
    (⟨403, Page.jsonErr "Invalid CSRF token"⟩, [])
  else
    match r.body with
    | none => (⟨400, Page.jsonErr "Invalid request"⟩, [])
    | some email =>
        if storeOk then (⟨200, Page.jsonOk⟩, [StoreOp.setDefaultOp email])
        else (⟨500, Page.jsonErr "Failed to set default account"⟩,
              [StoreOp.setDefaultOp email])

/-- handleRemoveAccount: method check, CSRF header equality, body decode,
then the DeleteToken store call. -/
def handleRemoveAccountM (csrfToken : String) (r : MutReq) (storeOk : Bool) :
    HttpResponse × List StoreOp :=
  if r.method ≠ "POST" then (⟨405, Page.jsonErr "Method not allowed"⟩, [])
  else if r.csrfHeader ≠ csrfToken then
    (⟨403, Page.jsonErr "Invalid CSRF token"⟩, [])
  else
    match r.body with
    | none => (⟨400, Page.jsonErr "Invalid request"⟩, [])
    | some email =>
        if storeOk then (⟨200, Page.jsonOk⟩, [StoreOp.deleteTokenOp email])
        else (⟨500, Page.jsonErr "Failed to remove account"⟩,
              [StoreOp.deleteTokenOp email])

def hexDigit (n : Nat) : Char :=
  if n < 10 then Char.ofNat (48 + n) else Char.ofNat (87 + n)

def hexEncode : List Nat → List Char
  | [] => []
  | b :: bs => hexDigit (b / 16 % 16) :: hexDigit (b % 16) :: hexEncode bs

/-- generateCSRFToken: hex encoding of 32 random bytes (the randomness is
the byte-list argument). -/
def generateCSRFToken (bytes : List Nat) : String :=
  String.mk (hexEncode bytes)

/-- Application of one store operation to the secrets store, with the
setToken semantics of the store. -/
def applyStoreOp (store : SecretStore) : StoreOp → Except String SecretStore
  | StoreOp.setTokenOp email tok => setToken store email tok
  | StoreOp.setDefaultOp _ => Except.ok store
  | StoreOp.deleteTokenOp email =>
      let e := normalizeEmail email
      match lookupStore store e with
      | some _ => Except.ok (store.filter (fun p => p.1 ≠ e))
      | none => Except.error "secret not found in keyring"

def applyStoreOps (store : SecretStore) : List StoreOp → Except String SecretStore
  | [] => Except.ok store
  | op :: ops =>
      match applyStoreOp store op with
      | Except.error e => Except.error e
      | Except.ok store' => applyStoreOps store' ops

/-! ### Token export and import (internal/cmd/auth.go) -/

/-- The export file record written by AuthTokensExportCmd.Run; JSON
encoding is collapsed to the field values, and the RFC3339 CreatedAt
string is carried as the timestamp itself. -/
structure ExportRec where
  email : String
  services : List String
  scopes : List String
  createdAt : Option Nat
  refreshToken : String
deriving Repr, DecidableEq

/-- AuthTokensExportCmd.Run, reduced to the record written to the output
file from the stored token. -/
def exportToken (tok : Token) : ExportRec :=
  ⟨tok.email, tok.services, tok.scopes, tok.createdAt, tok.refreshToken⟩

/-- AuthTokensImportCmd.Run, reduced to the validation of the export
record and the (email, token) pair passed to store.SetToken: the email is
trimmed and required non-empty, the refresh token is required non-blank,
and the stored record carries the trimmed email and the unmodified
services, scopes, created-at and refresh token. -/
def importToken (ex : ExportRec) : Except String (String × Token) :=
  let email := goTrim ex.email
  if email = "" then Except.error "missing email in token file"
  else if goTrim ex.refreshToken = "" then
    Except.error "missing refresh_token in token file"
  else
    Except.ok (email, ⟨email, ex.services, ex.scopes, ex.createdAt, ex.refreshToken⟩)

/-! ### Concrete inputs for the counterexamples -/

/-- A manage server state whose flow issued state token state1. -/
def cexManageState : ManageState := ⟨"state1", "csrftok"⟩

/-- A valid callback for cexManageState: no error, matching state, a
code, no email parameter. -/
def cexCallback : CallbackRequest := ⟨"/oauth2/callback", "", "state1", "codeA", ""⟩

/-- An exchange that always succeeds with refresh token rtA. -/
def cexExch : String → Option String := fun _ => some "rtA"

/-- The accounts-server callback handler run a second time on the very
state returned by a first successful run, with the same state token. -/
def cexSecondCallback : ManageState × HttpResponse × List StoreOp :=
  handleOAuthCallbackM
    (handleOAuthCallbackM cexManageState ["gmail"] ["scopeA"] true cexExch cexCallback).1
    ["gmail"] ["scopeA"] true cexExch cexCallback

/-! ### Concrete inputs for the witnesses -/

/-- A two-service registry for the scope-union witness; every other
identifier is unknown. -/
def witReg : String → Option (List String) :=
  fun x =>
    if x = "gmail" then some ["https://mail.google.com/", "profile"]
    else if x = "tasks" then some ["https://www.googleapis.com/auth/tasks"]
    else none

/-- A callback carrying a valid code but a wrong state value. -/
def witMismatchCallback : CallbackRequest :=
  ⟨"/oauth2/callback", "", "forged", "codeX", ""⟩

/-- A valid callback for issued state s1. -/
def witValidCallback : CallbackRequest :=
  ⟨"/oauth2/callback", "", "s1", "codeX", ""⟩

/-- A second valid callback for cexManageState carrying a different code
and yielding a different refresh token. -/
def witCallbackB : CallbackRequest := ⟨"/oauth2/callback", "", "state1", "codeB", ""⟩

def witExchB : String → Option String := fun _ => some "rtB"

/-- An exchange succeeding with refresh token rtX. -/
def witExch : String → Option String := fun _ => some "rtX"

/-- A stored token record with a normalized email, as the secrets store
keeps them. -/
def witToken : Token :=
  ⟨"a@b.com", ["gmail"], ["s1"], some 1765497600, "rt"⟩

/-! ## Helper lemmas -/

theorem handleCallback_valid_fresh (issuedState : String) (q : CallbackRequest)
    (hpath : q.path = "/oauth2/callback") (herr : q.errorParam = "")
    (hst : q.state = issuedState) (hcode : q.code ≠ "") :
    handleCallback issuedState q ⟨none, none⟩ =
      (⟨some q.code, none⟩, ⟨200, Page.success⟩) := by
  simp [handleCallback, hpath, herr, hst, hcode, trySend]

theorem handleCallback_valid_full (issuedState : String) (q : CallbackRequest)
    (c : String)
    (hpath : q.path = "/oauth2/callback") (herr : q.errorParam = "")
    (hst : q.state = issuedState) (hcode : q.code ≠ "") :
    handleCallback issuedState q ⟨some c, none⟩ =
      (⟨some c, none⟩, ⟨200, Page.success⟩) := by
  simp [handleCallback, hpath, herr, hst, hcode, trySend]

theorem processDeliveries_replicate_full (issuedState : String)
    (q : CallbackRequest) (c : String) (k : Nat)
    (hpath : q.path = "/oauth2/callback") (herr : q.errorParam = "")
    (hst : q.state = issuedState) (hcode : q.code ≠ "") :
    processDeliveries issuedState ⟨some c, none⟩ (List.replicate k q) =
      ⟨some c, none⟩ := by
  induction k with
  | zero => simp [processDeliveries]
  | succ m ih =>
      rw [List.replicate_succ]
      simp only [processDeliveries,
        handleCallback_valid_full issuedState q c hpath herr hst hcode]
      exact ih

theorem acceptedCount_replicate_full (issuedState : String)
    (q : CallbackRequest) (c : String) (k : Nat)
    (hpath : q.path = "/oauth2/callback") (herr : q.errorParam = "")
    (hst : q.state = issuedState) (hcode : q.code ≠ "") :
    acceptedCount issuedState ⟨some c, none⟩ (List.replicate k q) = 0 := by
  induction k with
  | zero => simp [acceptedCount]
  | succ m ih =>
      rw [List.replicate_succ]
      simp only [acceptedCount,
        handleCallback_valid_full issuedState q c hpath herr hst hcode]
      simpa using ih

theorem lookup_storeInsert (store : SecretStore) (k : String) (v : Token) :
    lookupStore (storeInsert store k v) k = some v := by
  induction store with
  | nil => simp [storeInsert, lookupStore]
  | cons p rest ih =>
      by_cases h : p.1 = k
      · simp [storeInsert, lookupStore, h]
      · simp [storeInsert, lookupStore, h, ih]

theorem hexEncode_length (bytes : List Nat) :
    (hexEncode bytes).length = 2 * bytes.length := by
  induction bytes with
  | nil => simp [hexEncode]
  | cons b bs ih => simp [hexEncode, ih]; ring

theorem generateCSRFToken_ne_empty (bytes : List Nat) (h : bytes ≠ []) :
    generateCSRFToken bytes ≠ "" := by
  intro hcontra
  have hdata : hexEncode bytes = [] := congrArg String.data hcontra
  have hlen := hexEncode_length bytes
  rw [hdata] at hlen
  cases bytes with
  | nil => exact h rfl
  | cons b bs => simp at hlen

/-! ## Claim theorems -/

/-- C1: a callback delivered to the oauth2 callback path carrying no
error parameter and a state different from the issued one is classified
as a state mismatch: in the interactive flow the handler renders the CSRF
error page with status 400 and offers the state-mismatch error to the
error channel, and when it is the first delivery of the flow the
coordinator terminates with that error without any token-exchange call;
the accounts-server callback handler likewise returns the CSRF error page
with status 400 and performs no store operation, whatever the code
parameter holds. -/
theorem callback_state_mismatch_csrf (issuedState : String)
    (q : CallbackRequest) (s : Slots) (st : ManageState)
    (serviceNames scopes : List String) (credsOk : Bool)
    (exch : String → Option String) (pick : Pick)
    (hpath : q.path = "/oauth2/callback") (herr : q.errorParam = "")
    (hmi : q.state ≠ issuedState) (hms : q.state ≠ st.oauthState) :
    handleCallback issuedState q s =
      ({ s with errSlot := trySend s.errSlot FlowErr.stateMismatch },
       ⟨400, Page.errorPage csrfMismatchMsg⟩)
    ∧ processDeliveries issuedState ⟨none, none⟩ [q] =
        ⟨none, some FlowErr.stateMismatch⟩
    ∧ authorizeWait ⟨none, some FlowErr.stateMismatch⟩ false pick exch =
        some (Except.error FlowErr.stateMismatch, [])
    ∧ handleOAuthCallbackM st serviceNames scopes credsOk exch q =
        (st, ⟨400, Page.errorPage csrfMismatchMsg⟩, []) := by
  refine ⟨?_, ?_, rfl, ?_⟩
  · simp [handleCallback, hpath, herr, hmi]
  · simp [processDeliveries, handleCallback, hpath, herr, hmi, trySend]
  · simp [handleOAuthCallbackM, herr, hms]

/-- C1 witness: a concrete forged-state callback with a present code is
rejected as a CSRF mismatch by both the interactive handler and the
accounts-server handler. -/
theorem callback_state_mismatch_csrf_witness :
    handleCallback "s1" witMismatchCallback ⟨none, none⟩ =
      (⟨none, some FlowErr.stateMismatch⟩,
       ⟨400, Page.errorPage csrfMismatchMsg⟩)
    ∧ handleOAuthCallbackM ⟨"s1", "tok"⟩ ["gmail"] ["scopeA"] true witExch
        witMismatchCallback =
      (⟨"s1", "tok"⟩, ⟨400, Page.errorPage csrfMismatchMsg⟩, []) := by
  have h := callback_state_mismatch_csrf "s1" witMismatchCallback ⟨none, none⟩
    ⟨"s1", "tok"⟩ ["gmail"] ["scopeA"] true witExch Pick.pickCode
    (by decide) (by decide) (by decide) (by decide)
  exact ⟨by rw [h.1]; rfl, h.2.2.2⟩

/-- C6: a callback whose error query parameter is non-empty is classified
as user cancellation before any state or code validation: for every
state and code value the interactive handler renders the cancelled page
with status 200 and offers the authorization error to the error channel,
and the accounts-server handler renders the cancelled page and performs
no store operation. -/
theorem callback_error_param_cancellation (issuedState : String)
    (q : CallbackRequest) (s : Slots) (st : ManageState)
    (serviceNames scopes : List String) (credsOk : Bool)
    (exch : String → Option String)
    (hpath : q.path = "/oauth2/callback") (herr : q.errorParam ≠ "") :
    handleCallback issuedState q s =
      ({ s with errSlot := trySend s.errSlot (FlowErr.authError q.errorParam) },
       ⟨200, Page.cancelled⟩)
    ∧ handleOAuthCallbackM st serviceNames scopes credsOk exch q =
        (st, ⟨200, Page.cancelled⟩, []) := by
  constructor
  · simp [handleCallback, hpath, herr]
  · simp [handleOAuthCallbackM, herr]

/-- C6 witness: a concrete callback with error=access_denied together
with a present code and a matching state is still classified as
cancellation by both handlers. -/
theorem callback_error_param_cancellation_witness :
    handleCallback "s1" ⟨"/oauth2/callback", "access_denied", "s1", "codeX", ""⟩
        ⟨none, none⟩ =
      (⟨none, some (FlowErr.authError "access_denied")⟩, ⟨200, Page.cancelled⟩)
    ∧ handleOAuthCallbackM ⟨"s1", "tok"⟩ ["gmail"] ["scopeA"] true witExch
        ⟨"/oauth2/callback", "access_denied", "s1", "codeX", ""⟩ =
      (⟨"s1", "tok"⟩, ⟨200, Page.cancelled⟩, []) := by
  have h := callback_error_param_cancellation "s1"
    ⟨"/oauth2/callback", "access_denied", "s1", "codeX", ""⟩ ⟨none, none⟩
    ⟨"s1", "tok"⟩ ["gmail"] ["scopeA"] true witExch (by decide) (by decide)
  exact ⟨by rw [h.1]; rfl, h.2⟩

/-- C4: a non-positive (or unset, hence zero) timeout is replaced by the
positive default of two minutes; when the deadline fires before any
callback delivery both rendezvous slots are still empty, the coordinator
returns the deadline-exceeded outcome with no token-exchange call, and
the auth add command propagates the error without writing any record to
the secret store. -/
theorem authorize_timeout_default_no_store (t : Int) (email : String)
    (serviceNames scopes : List String) (pick : Pick)
    (exch : String → Option String) (ht : t ≤ 0) :
    effectiveTimeout t = 120000000000
    ∧ 0 < effectiveTimeout t
    ∧ authorizeWait ⟨none, none⟩ true pick exch =
        some (Except.error FlowErr.deadlineExceeded, [])
    ∧ authAddRun email serviceNames scopes
        (Except.error FlowErr.deadlineExceeded) =
        (Except.error FlowErr.deadlineExceeded, []) := by
  refine ⟨?_, ?_, rfl, rfl⟩
  · simp [effectiveTimeout, ht]
  · simp [effectiveTimeout, ht]

/-- C4 witness: with the zero (unset) timeout the default applies and a
timed-out flow stores nothing. -/
theorem authorize_timeout_default_no_store_witness :
    effectiveTimeout 0 = 120000000000
    ∧ authAddRun "a@b.com" ["gmail"] ["scopeA"]
        (Except.error FlowErr.deadlineExceeded) =
        (Except.error FlowErr.deadlineExceeded, []) := by
  have h := authorize_timeout_default_no_store 0 "a@b.com" ["gmail"] ["scopeA"]
    Pick.pickCode witExch (by decide)
  exact ⟨h.1, h.2.2.2⟩

/-- C2: when two or more callback deliveries all carry the same valid
code and state pair, only the first is accepted into the single-slot code
rendezvous: the slots after processing the whole sequence equal the slots
after the first delivery alone, exactly one delivery is accepted, the
error slot stays empty, and the coordinator makes exactly one
token-exchange call, on that code. -/
theorem duplicate_deliveries_single_exchange (issuedState : String)
    (q : CallbackRequest) (n : Nat) (exch : String → Option String)
    (pick : Pick) (hn : 2 ≤ n)
    (hpath : q.path = "/oauth2/callback") (herr : q.errorParam = "")
    (hst : q.state = issuedState) (hcode : q.code ≠ "") :
    processDeliveries issuedState ⟨none, none⟩ (List.replicate n q) =
      ⟨some q.code, none⟩
    ∧ acceptedCount issuedState ⟨none, none⟩ (List.replicate n q) = 1
    ∧ authorizeWait
        (processDeliveries issuedState ⟨none, none⟩ (List.replicate n q))
        false pick exch = some (exchangeStep exch q.code)
    ∧ (exchangeStep exch q.code).2 = [q.code]
    ∧ processDeliveries issuedState ⟨none, none⟩ (List.replicate n q) =
        processDeliveries issuedState ⟨none, none⟩ [q] := by
  obtain ⟨m, rfl⟩ : ∃ m, n = m + 1 := ⟨n - 1, by omega⟩
  have hfresh := handleCallback_valid_fresh issuedState q hpath herr hst hcode
  have hone : processDeliveries issuedState ⟨none, none⟩
      (List.replicate (m + 1) q) = ⟨some q.code, none⟩ := by
    rw [List.replicate_succ]
    simp only [processDeliveries, hfresh]
    exact processDeliveries_replicate_full issuedState q q.code m
      hpath herr hst hcode
  refine ⟨hone, ?_, ?_, ?_, ?_⟩
  · rw [List.replicate_succ]
    simp only [acceptedCount, hfresh]
    simp [acceptedCount_replicate_full issuedState q q.code m
      hpath herr hst hcode]
  · rw [hone]; rfl
  · simp [exchangeStep]
    cases hx : exch q.code with
    | none => rfl
    | some rt => by_cases hrt : rt = "" <;> simp [hrt]
  · rw [hone]
    simp [processDeliveries, hfresh]

/-- C2 witness: three identical valid deliveries yield one accepted write
and a single exchange call. -/
theorem duplicate_deliveries_single_exchange_witness :
    processDeliveries "s1" ⟨none, none⟩ (List.replicate 3 witValidCallback) =
      ⟨some "codeX", none⟩
    ∧ acceptedCount "s1" ⟨none, none⟩ (List.replicate 3 witValidCallback) = 1
    ∧ (exchangeStep witExch "codeX").2 = ["codeX"] := by
  have h := duplicate_deliveries_single_exchange "s1" witValidCallback 3
    witExch Pick.pickCode (by decide) (by decide) (by decide) (by decide)
    (by decide)
  exact ⟨h.1, h.2.1, h.2.2.2.1⟩

/-- C8 counterexample: in the manual flow, a pasted redirect URL whose
read ends at end-of-input is not parsed; the read error itself is
returned, because the code tolerates only the file-already-closed error,
not the end-of-file error. This refutes the claim that end-of-input is
treated as a terminal no-more-input condition whose line is still
parsed. -/
theorem manual_eof_returns_read_error :
    manualRead "http://localhost:1/?code=abc&state=xyz"
        (some ReadErrorKind.endOfInput) =
      Except.error (FlowErr.readFailed ReadErrorKind.endOfInput)
    ∧ manualRead "http://localhost:1/?code=abc&state=xyz"
        (some ReadErrorKind.endOfInput) ≠
      Except.ok "http://localhost:1/?code=abc&state=xyz" := by
  exact ⟨rfl, fun h => Except.noConfusion h⟩

/-- C8 amended: the manual flow tolerates exactly the file-already-closed
read error as a terminal no-more-input condition, parsing the line read
so far; an error-free read is parsed as well, while an end-of-input
(end-of-file) read error is returned to the caller as a failure and the
line is not parsed. -/
theorem manual_read_tolerates_only_file_closed (line : String) :
    manualRead line none = Except.ok (goTrim line)
    ∧ manualRead line (some ReadErrorKind.fileClosed) = Except.ok (goTrim line)
    ∧ manualRead line (some ReadErrorKind.endOfInput) =
        Except.error (FlowErr.readFailed ReadErrorKind.endOfInput) := by
  exact ⟨rfl, rfl, rfl⟩

/-- C5 counterexample: a POST to the set-default endpoint whose CSRF
header matches the issued token but whose body does not decode is
answered with status 400 and performs no store operation, refuting the
claim that every request with a matching header proceeds to the
corresponding store operation. -/
theorem set_default_matching_header_no_store :
    handleSetDefaultM "csrftok" ⟨"POST", "csrftok", none⟩ true =
      (⟨400, Page.jsonErr "Invalid request"⟩, []) := by
  rfl

/-- C5 amended: a POST to the set-default or remove-account endpoint
whose CSRF header does not match the issued token is rejected with
status 403 before any store operation; the token issued at server start
is never the empty string, so a request with the header missing (the
empty header value) is always rejected; and a POST with a matching
header whose JSON body decodes to an email proceeds to the corresponding
store operation. -/
theorem mutating_endpoints_csrf_gate (tokenStr : String) (r : MutReq)
    (storeOk : Bool) (bytes : List Nat) (email : String)
    (hm : r.method = "POST") :
    (r.csrfHeader ≠ tokenStr →
      handleSetDefaultM tokenStr r storeOk =
        (⟨403, Page.jsonErr "Invalid CSRF token"⟩, [])
      ∧ handleRemoveAccountM tokenStr r storeOk =
        (⟨403, Page.jsonErr "Invalid CSRF token"⟩, []))
    ∧ (bytes.length = 32 → generateCSRFToken bytes ≠ "")
    ∧ (r.csrfHeader = tokenStr → r.body = some email →
      (handleSetDefaultM tokenStr r storeOk).2 = [StoreOp.setDefaultOp email]
      ∧ (handleRemoveAccountM tokenStr r storeOk).2 =
          [StoreOp.deleteTokenOp email]) := by
  refine ⟨?_, ?_, ?_⟩
  · intro hne
    constructor
    · simp [handleSetDefaultM, hm, hne]
    · simp [handleRemoveAccountM, hm, hne]
  · intro hlen
    exact generateCSRFToken_ne_empty bytes (by intro h; rw [h] at hlen; simp at hlen)
  · intro heq hbody
    constructor
    · cases storeOk <;> simp [handleSetDefaultM, hm, heq, hbody]
    · cases storeOk <;> simp [handleRemoveAccountM, hm, heq, hbody]

/-- C5 witness: a concrete mismatching header is rejected with 403 and no
store operation, and a concrete matching request with a decodable body
reaches the store operation; a 32-byte token is non-empty. -/
theorem mutating_endpoints_csrf_gate_witness :
    handleSetDefaultM "csrftok" ⟨"POST", "wrong", some "a@b.com"⟩ true =
      (⟨403, Page.jsonErr "Invalid CSRF token"⟩, [])
    ∧ (handleSetDefaultM "csrftok" ⟨"POST", "csrftok", some "a@b.com"⟩ true).2 =
        [StoreOp.setDefaultOp "a@b.com"]
    ∧ generateCSRFToken (List.replicate 32 0) ≠ "" := by
  have h1 := mutating_endpoints_csrf_gate "csrftok"
    ⟨"POST", "wrong", some "a@b.com"⟩ true (List.replicate 32 0) "a@b.com"
    (by decide)
  have h2 := mutating_endpoints_csrf_gate "csrftok"
    ⟨"POST", "csrftok", some "a@b.com"⟩ true (List.replicate 32 0) "a@b.com"
    (by decide)
  exact ⟨(h1.1 (by decide)).1, (h2.2.2 (by decide) rfl).1, h1.2.1 (by decide)⟩

/-- The accounts-server callback handler never writes the oauthState
field: the server state it returns is the one it was given. -/
theorem handleOAuthCallbackM_state_const (st : ManageState)
    (serviceNames scopes : List String) (credsOk : Bool)
    (exch : String → Option String) (q : CallbackRequest) :
    (handleOAuthCallbackM st serviceNames scopes credsOk exch q).1 = st := by
  unfold handleOAuthCallbackM
  repeat' split
  all_goals rfl

/-- C3 counterexample: after a fully successful accounts-server callback,
a second arrival presenting the very same state token is not rejected: it
passes validation again, performs another token exchange and another
store write, and is answered with the success page. This refutes the
claim that the state token is consumed exactly once and invalidated at
flow end. -/
theorem manage_state_not_consumed :
    (handleOAuthCallbackM cexManageState ["gmail"] ["scopeA"] true cexExch
        cexCallback).2.2 =
      [StoreOp.setTokenOp "user@gmail.com"
        ⟨"user@gmail.com", ["gmail"], ["scopeA"], none, "rtA"⟩]
    ∧ cexSecondCallback.2.2 =
      [StoreOp.setTokenOp "user@gmail.com"
        ⟨"user@gmail.com", ["gmail"], ["scopeA"], none, "rtA"⟩]
    ∧ cexSecondCallback.2.1 =
      ⟨200, Page.successDetails "user@gmail.com" ["gmail"]⟩ := by
  refine ⟨rfl, rfl, rfl⟩

/-- C3 amended: every state token is unique to one flow instance in the
sense that it is generated fresh at flow start (each auth-start overwrites
the accounts-server oauthState with the newly generated value, and the
interactive state is local to one Authorize call), but a valid match does
not consume it: the accounts-server callback handler leaves the stored
state unchanged, so a repeated identical arrival is processed exactly as
the first one rather than rejected, and in the interactive flow later
arrivals presenting the issued state still pass validation, with only
their payload discarded by the full single-slot rendezvous. -/
theorem state_token_reuse (st : ManageState) (serviceNames scopes : List String)
    (credsOk : Bool) (exch : String → Option String) (q : CallbackRequest)
    (newState : String) (issuedState c : String) (q2 : CallbackRequest)
    (hpath : q2.path = "/oauth2/callback") (herr : q2.errorParam = "")
    (hst : q2.state = issuedState) (hcode : q2.code ≠ "") :
    (handleOAuthCallbackM st serviceNames scopes credsOk exch q).1 = st
    ∧ handleOAuthCallbackM
        (handleOAuthCallbackM st serviceNames scopes credsOk exch q).1
        serviceNames scopes credsOk exch q =
      handleOAuthCallbackM st serviceNames scopes credsOk exch q
    ∧ (handleAuthStartM st true newState).1.oauthState = newState
    ∧ handleCallback issuedState q2 ⟨some c, none⟩ =
        (⟨some c, none⟩, ⟨200, Page.success⟩) := by
  refine ⟨handleOAuthCallbackM_state_const st serviceNames scopes credsOk exch q,
    ?_, rfl, handleCallback_valid_full issuedState q2 c hpath herr hst hcode⟩
  rw [handleOAuthCallbackM_state_const st serviceNames scopes credsOk exch q]

/-- C3 amended witness: a concrete repeated valid arrival at the accounts
server is processed identically, auth-start installs the fresh state, and
a duplicate interactive delivery leaves the full slot unchanged. -/
theorem state_token_reuse_witness :
    handleOAuthCallbackM
        (handleOAuthCallbackM cexManageState ["gmail"] ["scopeA"] true cexExch
          cexCallback).1 ["gmail"] ["scopeA"] true cexExch cexCallback =
      handleOAuthCallbackM cexManageState ["gmail"] ["scopeA"] true cexExch
        cexCallback
    ∧ (handleAuthStartM cexManageState true "state2").1.oauthState = "state2"
    ∧ handleCallback "s1" witValidCallback ⟨some "codeOld", none⟩ =
        (⟨some "codeOld", none⟩, ⟨200, Page.success⟩) := by
  have h := state_token_reuse cexManageState ["gmail"] ["scopeA"] true cexExch
    cexCallback "state2" "s1" "codeOld" witValidCallback
    (by decide) (by decide) (by decide) (by decide)
  exact ⟨h.2.1, h.2.2.1, h.2.2.2⟩

/-- C10: when the accounts-server callback carries no email query
parameter, a successful exchange is stored under the placeholder email
user@gmail.com; two accounts added this way are stored under the same
key, so applying both writes to an empty store leaves a single record,
the second one, which overwrote the first. -/
theorem callback_placeholder_email_overwrite (st : ManageState)
    (serviceNames scopes : List String) (q1 q2 : CallbackRequest)
    (exch1 exch2 : String → Option String) (rt1 rt2 : String)
    (h1e : q1.errorParam = "") (h1s : q1.state = st.oauthState)
    (h1c : q1.code ≠ "") (h1m : q1.email = "")
    (h1x : exch1 q1.code = some rt1) (h1rt : rt1 ≠ "")
    (h1tr : goTrim rt1 ≠ "")
    (h2e : q2.errorParam = "") (h2s : q2.state = st.oauthState)
    (h2c : q2.code ≠ "") (h2m : q2.email = "")
    (h2x : exch2 q2.code = some rt2) (h2rt : rt2 ≠ "")
    (h2tr : goTrim rt2 ≠ "") :
    handleOAuthCallbackM st serviceNames scopes true exch1 q1 =
      (st, ⟨200, Page.successDetails "user@gmail.com" serviceNames⟩,
       [StoreOp.setTokenOp "user@gmail.com"
         ⟨"user@gmail.com", serviceNames, scopes, none, rt1⟩])
    ∧ handleOAuthCallbackM st serviceNames scopes true exch2 q2 =
      (st, ⟨200, Page.successDetails "user@gmail.com" serviceNames⟩,
       [StoreOp.setTokenOp "user@gmail.com"
         ⟨"user@gmail.com", serviceNames, scopes, none, rt2⟩])
    ∧ applyStoreOps []
        [StoreOp.setTokenOp "user@gmail.com"
          ⟨"user@gmail.com", serviceNames, scopes, none, rt1⟩,
         StoreOp.setTokenOp "user@gmail.com"
          ⟨"user@gmail.com", serviceNames, scopes, none, rt2⟩] =
      Except.ok [("user@gmail.com",
        ⟨"user@gmail.com", serviceNames, scopes, none, rt2⟩)] := by
  have hnorm : normalizeEmail "user@gmail.com" = "user@gmail.com" := by decide
  refine ⟨?_, ?_, ?_⟩
  · simp [handleOAuthCallbackM, h1e, h1s, h1c, h1m, h1x, h1rt]
  · simp [handleOAuthCallbackM, h2e, h2s, h2c, h2m, h2x, h2rt]
  · simp [applyStoreOps, applyStoreOp, setToken, storeInsert, hnorm, h1tr, h2tr]

/-- C10 witness: two concrete no-email callbacks are both stored under
the placeholder and the second write overwrites the first. -/
theorem callback_placeholder_email_overwrite_witness :
    handleOAuthCallbackM cexManageState ["gmail"] ["scopeA"] true cexExch
        cexCallback =
      (cexManageState,
       ⟨200, Page.successDetails "user@gmail.com" ["gmail"]⟩,
       [StoreOp.setTokenOp "user@gmail.com"
         ⟨"user@gmail.com", ["gmail"], ["scopeA"], none, "rtA"⟩])
    ∧ applyStoreOps []
        [StoreOp.setTokenOp "user@gmail.com"
          ⟨"user@gmail.com", ["gmail"], ["scopeA"], none, "rtA"⟩,
         StoreOp.setTokenOp "user@gmail.com"
          ⟨"user@gmail.com", ["gmail"], ["scopeA"], none, "rtB"⟩] =
      Except.ok [("user@gmail.com",
        ⟨"user@gmail.com", ["gmail"], ["scopeA"], none, "rtB"⟩)] := by
  have h := callback_placeholder_email_overwrite cexManageState
    ["gmail"] ["scopeA"] cexCallback witCallbackB cexExch witExchB "rtA" "rtB"
    (by decide) (by decide) (by decide) (by decide) (by decide) (by decide)
    (by decide) (by decide) (by decide) (by decide) (by decide) (by decide)
    (by decide) (by decide)
  exact ⟨h.1, h.2.2⟩

/-- C9: exporting a stored token record and importing the exported file
restores the very same record: the import validation accepts it, the pair
passed to the store is the original email with the original token, the
store write succeeds, and reading the key back returns a record whose
refresh token, scopes and services (indeed all fields) equal the
exported ones. The hypotheses are the store invariants for stored
records: the email is already normalized and the refresh token is not
blank. -/
theorem export_import_roundtrip (store : SecretStore) (tok : Token)
    (hnorm : normalizeEmail tok.email = tok.email)
    (htrim : goTrim tok.email = tok.email)
    (hne : tok.email ≠ "") (hrt : goTrim tok.refreshToken ≠ "") :
    importToken (exportToken tok) = Except.ok (tok.email, tok)
    ∧ setToken store tok.email tok =
        Except.ok (storeInsert store tok.email tok)
    ∧ getToken (storeInsert store tok.email tok) tok.email =
        Except.ok tok := by
  refine ⟨?_, ?_, ?_⟩
  · simp [importToken, exportToken, htrim, hne, hrt]
  · simp [setToken, hnorm, hne, hrt]
  · simp [getToken, hnorm, hne, lookup_storeInsert]

/-- C9 witness: a concrete stored record round-trips unchanged through
export followed by re-importing. -/
theorem export_import_roundtrip_witness :
    importToken (exportToken witToken) = Except.ok ("a@b.com", witToken)
    ∧ getToken (storeInsert [] "a@b.com" witToken) "a@b.com" =
        Except.ok witToken := by
  have h := export_import_roundtrip [] witToken (by decide) (by decide)
    (by decide) (by decide)
  exact ⟨h.1, h.2.2⟩

/-- Membership in a successful scope collection: a scope is collected
exactly when some requested service maps to a list containing it. -/
theorem collectScopes_ok_mem (reg : String → Option (List String)) :
    ∀ (svcs all : List String), collectScopes reg svcs = Except.ok all →
      ∀ a, a ∈ all ↔ ∃ s, s ∈ svcs ∧ ∃ l, reg s = some l ∧ a ∈ l := by
  intro svcs
  induction svcs with
  | nil =>
      intro all h a
      simp only [collectScopes, Except.ok.injEq] at h
      subst h
      simp
  | cons s rest ih =>
      intro all h a
      unfold collectScopes at h
      cases hr : reg s with
      | none => simp [hr] at h
      | some sc =>
          cases hc : collectScopes reg rest with
          | error e => simp [hr, hc] at h
          | ok acc =>
              simp only [hr, hc, Except.ok.injEq] at h
              subst h
              constructor
              · intro ha
                rcases List.mem_append.mp ha with hsc | hacc
                · exact ⟨s, List.mem_cons_self s rest, sc, hr, hsc⟩
                · rcases (ih acc hc a).mp hacc with ⟨t, ht, l, hl, hal⟩
                  exact ⟨t, List.mem_cons_of_mem s ht, l, hl, hal⟩
              · rintro ⟨t, ht, l, hl, hal⟩
                rcases List.mem_cons.mp ht with rfl | ht'
                · rw [hr] at hl
                  injection hl with hl'
                  subst hl'
                  exact List.mem_append.mpr (Or.inl hal)
                · exact List.mem_append.mpr
                    (Or.inr ((ih acc hc a).mpr ⟨t, ht', l, hl, hal⟩))

/-- A scope collection over known services succeeds. -/
theorem collectScopes_exists_ok (reg : String → Option (List String)) :
    ∀ svcs : List String, (∀ x ∈ svcs, (reg x).isSome) →
      ∃ all, collectScopes reg svcs = Except.ok all := by
  intro svcs
  induction svcs with
  | nil => exact fun _ => ⟨[], rfl⟩
  | cons s rest ih =>
      intro hv
      rcases Option.isSome_iff_exists.mp (hv s (List.mem_cons_self s rest)) with
        ⟨sc, hsc⟩
      rcases ih (fun x hx => hv x (List.mem_cons_of_mem s hx)) with ⟨acc, hacc⟩
      exact ⟨sc ++ acc, by simp [collectScopes, hsc, hacc]⟩

/-- A scope collection over a list containing an unknown service fails. -/
theorem collectScopes_error_of_none (reg : String → Option (List String)) :
    ∀ (svcs : List String) (s : String), s ∈ svcs → reg s = none →
      ∃ e, collectScopes reg svcs = Except.error e := by
  intro svcs
  induction svcs with
  | nil => intro s hs; simp at hs
  | cons t rest ih =>
      intro s hs hn
      cases hr : reg t with
      | none => exact ⟨"unknown service: " ++ t, by simp [collectScopes, hr]⟩
      | some sc =>
          rcases List.mem_cons.mp hs with rfl | hs'
          · rw [hr] at hn
            exact absurd hn (by simp)
          · rcases ih s hs' hn with ⟨e, he⟩
            exact ⟨e, by simp [collectScopes, hr, he]⟩

/-- C7 (registry modelled from the spec): the scope union is a function
of the set of requested services only — any reordering or duplication of
a valid request yields the identical output list; every successful output
is lexicographically sorted and duplicate-free; and a request containing
any unknown service identifier fails with the unknown-service error
instead of returning a union. -/
theorem scope_union_deterministic_sorted (reg : String → Option (List String))
    (svcs1 svcs2 : List String) (s : String) :
    ((∀ x ∈ svcs1, (reg x).isSome) → svcs1.toFinset = svcs2.toFinset →
      ScopesForServices reg svcs1 = ScopesForServices reg svcs2)
    ∧ sortedDeduped (ScopesForServices reg svcs1)
    ∧ (s ∈ svcs1 → reg s = none →
      ∃ e, ScopesForServices reg svcs1 = Except.error e) := by
  refine ⟨?_, ?_, ?_⟩
  · intro hv hset
    have hmem : ∀ x : String, x ∈ svcs1 ↔ x ∈ svcs2 := by
      intro x
      rw [← List.mem_toFinset, hset, List.mem_toFinset]
    have hv2 : ∀ x ∈ svcs2, (reg x).isSome :=
      fun x hx => hv x ((hmem x).mpr hx)
    rcases collectScopes_exists_ok reg svcs1 hv with ⟨all1, h1⟩
    rcases collectScopes_exists_ok reg svcs2 hv2 with ⟨all2, h2⟩
    have hfin : all1.toFinset = all2.toFinset := by
      ext a
      simp only [List.mem_toFinset]
      rw [collectScopes_ok_mem reg svcs1 all1 h1 a,
        collectScopes_ok_mem reg svcs2 all2 h2 a]
      constructor
      · rintro ⟨t, ht, l, hl, hal⟩
        exact ⟨t, (hmem t).mp ht, l, hl, hal⟩
      · rintro ⟨t, ht, l, hl, hal⟩
        exact ⟨t, (hmem t).mpr ht, l, hl, hal⟩
    simp [ScopesForServices, h1, h2, dedupSort, hfin]
  · unfold ScopesForServices
    cases hc : collectScopes reg svcs1 with
    | error e => simp [sortedDeduped]
    | ok all =>
        simp only [sortedDeduped, dedupSort]
        exact ⟨Finset.sort_sorted _ _, Finset.sort_nodup _ _⟩
  · intro hs hn
    rcases collectScopes_error_of_none reg svcs1 s hs hn with ⟨e, he⟩
    exact ⟨e, by simp [ScopesForServices, he]⟩

/-- C7 witness: a duplicated, reordered request over the two-service
witness registry yields the identical union, and a request containing the
unknown identifier keep fails. -/
theorem scope_union_deterministic_sorted_witness :
    ScopesForServices witReg ["tasks", "gmail", "gmail"] =
      ScopesForServices witReg ["gmail", "tasks"]
    ∧ ∃ e, ScopesForServices witReg ["keep", "gmail"] = Except.error e := by
  refine ⟨?_, ?_⟩
  · exact (scope_union_deterministic_sorted witReg ["tasks", "gmail", "gmail"]
      ["gmail", "tasks"] "x").1 (by decide) (by decide)
  · exact (scope_union_deterministic_sorted witReg ["keep", "gmail"] [] "keep").2.2
      (by decide) (by decide)

end Gogcli
